import Mathlib

/-!
Verification of the fedimg EC2 upload service, a shallow embedding of
src/fedimg/services/ec2.py.

Python strings are modelled as lists of characters; the Python library calls
str.split, str.join and str.strip are embedded as executable functions on
those lists.  Remote cloud operations, the SSH channel and the fedmsg bus are
external collaborators: their outcomes enter the model as oracle parameters,
and the messages the pipeline sends to the bus are collected in event lists.
Every unbounded `while True` polling loop of the source is embedded with an
explicit fuel argument; fuel exhaustion models the loop not terminating.
-/

/- ### Python string primitives on lists of characters -/

/-- Embeds the Python `text.split(sep)` for a one-character separator: the
resulting groups never contain the separator, and splitting the empty string
yields one empty group, exactly as in Python. -/
def splitSep (sep : Char) : List Char → List (List Char)
  | [] => [[]]
  | c :: cs =>
    match splitSep sep cs with
    | [] => [[]]
    | g :: gs => if c = sep then [] :: g :: gs else (c :: g) :: gs

/-- Embeds the Python `sep.join(groups)` for a one-character separator. -/
def joinSep (sep : Char) : List (List Char) → List Char
  | [] => []
  | [g] => g
  | g :: gs => g ++ sep :: joinSep sep gs

/-- Embeds the Python `line.strip()`: leading and trailing whitespace removed. -/
def trimChars (l : List Char) : List Char :=
  ((l.dropWhile Char.isWhitespace).reverse.dropWhile Char.isWhitespace).reverse

/-- Decimal digits of a natural number, least significant first; the first
argument is structural fuel (any fuel above the number is enough). -/
def natDigitsRevGo : Nat → Nat → List Char
  | 0, _ => []
  | fuel + 1, n =>
    if n < 10 then [Nat.digitChar n]
    else Nat.digitChar (n % 10) :: natDigitsRevGo fuel (n / 10)

/-- Embeds the Python decimal formatting of a nonnegative integer, as produced
by the format call that appends the duplicate counter to an image name. -/
def natRepr (n : Nat) : List Char := (natDigitsRevGo (n + 1) n).reverse

/-- Value of a least-significant-first decimal digit list; used to show that
`natRepr` is injective. -/
def digitsVal : List Char → Nat
  | [] => 0
  | c :: cs => (c.toNat - 48) + 10 * digitsVal cs

/- ### Name Allocator (upload, source lines 230-246 and 259-265, 465-484) -/

/-- The fixed part of a candidate image name: buildName-region-virtLabel-volType,
where virtLabel is PV or HVM depending on the virtualization branch taken. -/
def nameStem (buildName region virtLabel volType : List Char) : List Char :=
  buildName ++ '-' :: (region ++ '-' :: (virtLabel ++ '-' :: volType))

/-- Embeds the initial image name built at source lines 231-233 and 240-242:
the format template buildName-region-PV-volType-0 (or HVM), with the duplicate
counter hard-coded to 0. -/
def initialImageName (buildName region virtLabel volType : List Char) : List Char :=
  buildName ++ '-' :: (region ++ '-' :: (virtLabel ++ '-' :: (volType ++ [ '-', '0' ])))

/-- Embeds source lines 261-265: drop the text after the last dash of the
current candidate name and append the new duplicate counter, via
`join(name.split(sep)[:-1])` followed by the formatted counter. -/
def reallocName (name : List Char) (dupCount : Nat) : List Char :=
  joinSep '-' ((splitSep '-' name).dropLast) ++ '-' :: natRepr dupCount

/-- The candidate name tried at duplicate counter k within one allocation loop:
counter 0 uses the initial format template, and each later counter reallocates
the previous candidate, exactly as the source loop does after incrementing
`self.dup_count`. -/
def attemptName (buildName region virtLabel volType : List Char) : Nat → List Char
  | 0 => initialImageName buildName region virtLabel volType
  | k + 1 => reallocName (attemptName buildName region virtLabel volType k) (k + 1)

/- ### Region Catalog parsing (EC2Service.__init__, source lines 89-126) -/

/-- A libcloud driver handle bound to one region. -/
structure EC2Driver where
  regionCode : List Char
deriving DecidableEq

/-- Modelled from the spec: `region_to_driver` lives in fedimg.util, which is
not under src/; per the spec it resolves the driver/endpoint from the region
code, so the model binds the driver to exactly that code. -/
def region_to_driver (region : List Char) : EC2Driver := ⟨region⟩

/-- One parsed AMI catalog entry (the dict built at source lines 104-119);
the os and ver fields only exist for the legacy 6-field lines. -/
structure AmiInfo where
  region : List Char
  driver : EC2Driver
  os : Option (List Char) := none
  ver : Option (List Char) := none
  arch : List Char
  ami : List Char
  aki : List Char
deriving DecidableEq

/-- Embeds the per-line parse of source lines 98-119: strip the line, split on
the pipe character, then build the info dict when there are exactly 6 or
exactly 4 fields.  Any other field count assigns nothing (the source has no
else branch), which this function reports as `none`. -/
def parseAmiLine (line : List Char) : Option AmiInfo :=
  match splitSep '|' (trimChars line) with
  | [r, o, v, a, m, k] =>
      some { region := r, driver := region_to_driver r, os := some o, ver := some v,
             arch := a, ami := m, aki := k }
  | [r, a, m, k] =>
      some { region := r, driver := region_to_driver r, arch := a, ami := m, aki := k }
  | _ => none

/-- Embeds the catalog loop of source lines 90-126.  The loop variable `info`
is only assigned by the 4-field and 6-field branches, yet the append at lines
125-126 runs for every line: a malformed line therefore appends the `info`
left over from the most recent well-formed line, and if no line was parsed
yet the append reads an unassigned local name, a Python NameError, which the
model reports as `Except.error`. -/
def parseAmisGo : Option AmiInfo → List (List Char) → Except Unit (List AmiInfo)
  | _, [] => Except.ok []
  | prev, line :: rest =>
    match parseAmiLine line with
    | some info => (parseAmisGo (some info) rest).map (fun l => info :: l)
    | none =>
      match prev with
      | some info => (parseAmisGo (some info) rest).map (fun l => info :: l)
      | none => Except.error ()

/-- Embeds the whole catalog parse: split the configuration text on newlines
and run the loop with no `info` assigned yet. -/
def parseAmis (txt : List Char) : Except Unit (List AmiInfo) :=
  parseAmisGo none (splitSep '\n' txt)

/- ### Registration parameters (upload, source lines 230-246) -/

/-- Embeds the aki lookup of source lines 236-237: the comprehension keeps the
aki of every test entry whose region matches, and indexes the first; an empty
result is a Python IndexError, reported as `none`. -/
def registrationAkiLookup (testAmis : List AmiInfo) (region : List Char) : Option (List Char) :=
  ((testAmis.filter (fun a => a.region = region)).map (fun a => a.aki)).head?

/-- The registration parameters chosen by the virtualization branch. -/
structure RegChoice where
  testSizeId : String
  registrationAki : Option (List Char)
  regRootDeviceName : String
deriving DecidableEq

/-- Embeds the branch at source lines 230-246: the paravirtual branch picks
root device /dev/sda, size m1.xlarge and the aki looked up for the region,
while every other virtualization type (the HVM branch) picks /dev/sda1, size
m3.2xlarge and no kernel image.  A failed aki lookup in the paravirtual
branch is the IndexError of line 237, reported as `none`. -/
def registrationChoice (virtType : String) (testAmis : List AmiInfo) (region : List Char) :
    Option RegChoice :=
  if virtType = "paravirtual" then
    match registrationAkiLookup testAmis region with
    | some aki => some ⟨"m1.xlarge", some aki, "/dev/sda"⟩
    | none => none
  else
    some ⟨"m3.2xlarge", none, "/dev/sda1"⟩

/- ### Cleanup (EC2Service._clean_up, source lines 144-169) -/

/-- One resource teardown call issued through the libcloud driver. -/
inductive CleanAction where
  | deleteImage (imageId : Nat)
  | destroySnapshot (snapId : Nat)
  | destroyNode (nodeId : Nat)
  | destroyVolume (volId : Nat)
deriving DecidableEq

/-- The mutable resource handles of one EC2Service run that `_clean_up`
inspects: the registered images, the snapshot, the utility node and volume,
and the test node. -/
structure CleanState where
  images : List Nat
  snapshot : Option Nat
  utilNode : Option Nat
  utilVolume : Option Nat
  testNode : Option Nat
deriving DecidableEq

/-- Embeds source lines 147-149: the images are deleted only when the
delete_images argument is set and the list is nonempty; the list itself is
not cleared afterwards. -/
def imageCleanActs (st : CleanState) (deleteImages : Bool) : List CleanAction :=
  if deleteImages = true ∧ st.images ≠ [] then st.images.map CleanAction.deleteImage else []

/-- Embeds source lines 151-153: the snapshot is destroyed only when it exists
and the images list is empty. -/
def snapCleanActs (st : CleanState) : List CleanAction :=
  match st.snapshot with
  | some s => if st.images = [] then [CleanAction.destroySnapshot s] else []
  | none => []

/-- The snapshot handle after `_clean_up`: cleared exactly when it was
destroyed (source line 153). -/
def snapAfterClean (st : CleanState) : Option Nat :=
  match st.snapshot with
  | some s => if st.images = [] then none else some s
  | none => none

/-- Destroy calls for an optional node handle (source lines 155-162, 167-169);
the SSH wait after destroying the utility node only delays, it tears down
nothing further. -/
def nodeCleanActs (node : Option Nat) : List CleanAction :=
  match node with
  | some n => [CleanAction.destroyNode n]
  | none => []

/-- Destroy call for the optional utility volume handle (source lines 163-166). -/
def volumeCleanActs (vol : Option Nat) : List CleanAction :=
  match vol with
  | some v => [CleanAction.destroyVolume v]
  | none => []

/-- Embeds `_clean_up` (source lines 144-169): the teardown calls in source
order (images, snapshot, utility node, utility volume, test node) together
with the handle state afterwards. -/
def clean_up (st : CleanState) (deleteImages : Bool) : CleanState × List CleanAction :=
  (⟨st.images, snapAfterClean st, none, none, none⟩,
   imageCleanActs st deleteImages ++ snapCleanActs st ++ nodeCleanActs st.utilNode ++
     volumeCleanActs st.utilVolume ++ nodeCleanActs st.testNode)

/-- Embeds the four identical exception handlers of upload (source lines
411-438): when CLEAN_UP_ON_FAILURE is set, `_clean_up` runs with
delete_images bound to DELETE_IMAGES_ON_FAILURE, and the handler returns
status 1 either way. -/
def on_failure (cleanUpOnFailure deleteImagesOnFailure : Bool) (st : CleanState) :
    CleanState × List CleanAction × Nat :=
  if cleanUpOnFailure then
    let r := clean_up st deleteImagesOnFailure
    (r.1, r.2, 1)
  else (st, [], 1)

/- ### Boot test (upload, source lines 358-398) -/

/-- Verdict of the boot test of a newly registered AMI. -/
inductive TestVerdict where
  | passed
  | failed
deriving DecidableEq

/-- The image.test bus messages the test phase can emit. -/
inductive TestMsg where
  | testFailed (data : String)
  | testCompleted
deriving DecidableEq

/-- Observation of the SSH channel after running /bin/true on the test node:
the exit status reported by recv_exit_status (paramiko reports -1 when the
channel fails and closes without delivering a status), whether buffered
output is available, and that buffered output. -/
structure TestChannel where
  exitStatus : Int
  recvReady : Bool
  recvData : String
deriving DecidableEq

/-- Embeds source lines 373-375: the diagnostic payload starts as the fixed
placeholder and is replaced by the buffered channel output when any is
available. -/
def bootTestDiagnostic (ch : TestChannel) : String :=
  if ch.recvReady then ch.recvData else "(no data)"

/-- Embeds source lines 369-398: a nonzero exit status emits the image.test
failed message carrying the diagnostic payload and raises
EC2AMITestException, so the run records a failed verdict; a zero exit status
emits the completed message and sets test_success. -/
def bootTest (ch : TestChannel) : TestVerdict × List TestMsg :=
  if ch.exitStatus ≠ 0 then
    (TestVerdict.failed, [TestMsg.testFailed (bootTestDiagnostic ch)])
  else
    (TestVerdict.passed, [TestMsg.testCompleted])

/- ### Snapshot polling (source lines 689-704) -/

/-- Embeds the body of `_check_snapshot_exists` (source lines 697-704): the
function returns True when the snapshot state field differs from completed
and False when the state is completed. -/
def check_snapshot_exists (snapState : String) : Bool :=
  if snapState ≠ "completed" then true else false

/-- Modelled from the spec: the retry decorator applied at source line 689
(`retry_if_result_false` from fedimg.util, which is not under src/, with the
external retrying library) re-invokes the decorated function, waiting
wait_fixed between attempts, for as long as the result is False, and stops at
the first True result.  The fuel argument bounds the modelled attempts;
`none` means the loop was still polling when the fuel ran out. -/
def retryWhileFalse (f : Nat → Bool) : Nat → Nat → Option Nat
  | _, 0 => none
  | i, fuel + 1 => if f i then some i else retryWhileFalse f (i + 1) fuel

/- ### Replication (upload, source lines 443-565) -/

/-- Outcome of one round of the per-region copy attempt (the try body at
source lines 479-499): either every origin image was copied, or an exception
interrupted the round after some partial list of completed copies, the
exception being a duplicate-name rejection or any other error. -/
inductive RoundOutcome where
  | okAll (ids : List Nat)
  | failAt (partIds : List Nat) (isDup : Bool)
deriving DecidableEq

/-- The image.upload bus messages of the replication fan-out, per region. -/
inductive RepEvent where
  | started (region : String)
  | copyFailed (region : String)
  | completed (region : String)
deriving DecidableEq

/-- Embeds the duplicate-name retry loop around the copy calls (source lines
478-519): a clean round keeps its copies and breaks; a duplicate-name error
keeps the partial copies, increments the shared duplicate counter and
retries; any other error keeps the partial copies, is reported (log plus the
failed bus message, source lines 513-518) and breaks.  The returned Bool
records whether the failed message was emitted. -/
def copyRegionGo (round : Nat → RoundOutcome) (i dup : Nat) : Nat → Option (Nat × List Nat × Bool)
  | 0 => none
  | fuel + 1 =>
    match round i with
    | RoundOutcome.okAll ids => some (dup, ids, false)
    | RoundOutcome.failAt part true =>
        (copyRegionGo round (i + 1) (dup + 1) fuel).map (fun r => (r.1, part ++ r.2.1, r.2.2))
    | RoundOutcome.failAt part false => some (dup, part, true)

/-- Embeds the copy fan-out over the non-origin regions (source lines
448-519): each region emits its started message, runs the copy retry loop
with the shared duplicate counter, and appends its completed copies to
copied_images; a region whose loop ended in a reported failure additionally
emits the failed message.  The loop never stops early: every region of the
list is processed. -/
def copyFanout (rounds : Nat → Nat → RoundOutcome) (fuel : Nat) :
    List String → Nat → Nat → Option (Nat × List Nat × List RepEvent)
  | [], _, dup => some (dup, [], [])
  | r :: rs, k, dup =>
    match copyRegionGo (rounds k) 0 dup fuel with
    | none => none
    | some (dup2, ids, failed) =>
      match copyFanout rounds fuel rs (k + 1) dup2 with
      | none => none
      | some (dup3, allIds, evs) =>
          some (dup3, ids ++ allIds,
                (RepEvent.started r :: (if failed then [RepEvent.copyFailed r] else [])) ++ evs)

/-- Outcome of one ex_modify_image_attribute attempt while making a copy
public (source lines 539-551). -/
inductive PubResult where
  | ok
  | unavailable
  | otherErr
deriving DecidableEq

/-- Embeds the make-public retry loop (source lines 539-551): success breaks;
an image-not-yet-available error sleeps 20 seconds and retries; any other
error falls through the handler to the break, ending the loop with nothing
raised and nothing reported.  The result records whether the publish call
ever succeeded and how many 20-second waits happened. -/
def publishLoopGo (att : Nat → PubResult) : Nat → Nat → Option (Bool × Nat)
  | _, 0 => none
  | i, fuel + 1 =>
    match att i with
    | PubResult.ok => some (true, 0)
    | PubResult.unavailable => (publishLoopGo att (i + 1) fuel).map (fun r => (r.1, r.2 + 1))
    | PubResult.otherErr => some (false, 0)

/-- Embeds source lines 539-563 for one copied image: after the retry loop
ends, the code unconditionally logs and emits the completed message for the
region, whether or not the publish ever succeeded. -/
def publishImage (att : Nat → PubResult) (region : String) (fuel : Nat) :
    Option (List RepEvent) :=
  (publishLoopGo att 0 fuel).map (fun _ => [RepEvent.completed region])

/-- Embeds the publish loop over copied_images (source lines 526-563): the
region data for each copy is recovered by indexing the trimmed test list with
`copied_images.index(image)`; an index past the end of the region list is a
Python IndexError, reported as `none`. -/
def publishAllGo (atts : Nat → Nat → PubResult) (regions : List String) (copied : List Nat)
    (fuel : Nat) : List Nat → Nat → Option (List RepEvent)
  | [], _ => some []
  | img :: rest, j =>
    match regions.get? (List.indexOf img copied) with
    | none => none
    | some r =>
      match publishImage (atts j) r fuel with
      | none => none
      | some evs => (publishAllGo atts regions copied fuel rest (j + 1)).map (fun evs2 => evs ++ evs2)

/-- Embeds the whole replication stage run after a passed test (source lines
443-565): the copy fan-out over the non-origin regions followed by the
make-public pass over the accumulated copies. -/
def replicationRun (rounds : Nat → Nat → RoundOutcome) (atts : Nat → Nat → PubResult)
    (regions : List String) (dup0 fuel : Nat) : Option (List RepEvent) :=
  match copyFanout rounds fuel regions 0 dup0 with
  | none => none
  | some (_, copied, evs1) =>
    (publishAllGo atts regions copied fuel copied 0).map (fun evs2 => evs1 ++ evs2)

/- ### The upload driver (upload, source lines 171-565) -/

/-- Terminal observation of one upload call: a returned status code, an
exception that escaped upload, or a polling loop that never ended. -/
inductive UploadOutcome where
  | exitCode (code : Nat)
  | uncaughtExn
  | hung
deriving DecidableEq

/-- Python exceptions raised by slips in the source itself. -/
inductive PyExn where
  | typeErrorUnexpectedKeyword
  | nameError
deriving DecidableEq

/-- Embeds source line 210: upload calls `self.match_regex_pattern` with the
keyword argument `outout`, but the method signature at line 626 declares the
parameter `output`; Python therefore raises TypeError (unexpected keyword
argument) on every run, before the method body could even touch the missing
`re` import of line 635. -/
def matchRegexPatternCall : Except PyExn String :=
  Except.error PyExn.typeErrorUnexpectedKeyword

/-- Embeds source line 215: upload refers to the bare name `create_snapshot`,
but the function is only defined as a method (line 670), so the reference
raises NameError.  The later lines of the try block also read the undefined
names snap_id (line 251), step_1 (line 305), sizes (line 313) and snap_name
(line 684). -/
def createSnapshotCall : Except PyExn Unit :=
  Except.error PyExn.nameError

/-- Oracle for the externally-determined outcomes of one upload run: whether
the utility catalog has an entry, whether the driver construction, the
download, the availability-zone listing and the import call succeed, whether
the conversion-task poll ever reports completed, and the
CLEAN_UP_ON_FAILURE configuration flag. -/
structure UploadEnv where
  hasUtilAmi : Bool
  driverOk : Bool
  downloadOk : Bool
  azOk : Bool
  importOk : Bool
  conversionCompletes : Bool
  cleanUpOnFailure : Bool
deriving DecidableEq

/-- Continuation of upload after the task-id extraction, kept for fidelity
although the extraction always raises: the conversion poll (line 213, a
retry-while-false loop with no bound, modelled as hanging when it never
completes) followed by the unqualified create_snapshot reference of line 215,
whose NameError the generic handler turns into status 1. -/
def uploadAfterMatch (env : UploadEnv) : UploadOutcome :=
  if env.conversionCompletes = false then UploadOutcome.hung
  else
    match createSnapshotCall with
    | Except.error _ => UploadOutcome.exitCode 1
    | Except.ok _ => UploadOutcome.exitCode 1

/-- Embeds the driver-level control flow of upload (source lines 171-565).
Line 177 indexes the utility catalog before the try block, so an empty
catalog escapes as IndexError.  A driver construction failure (line 190) is
caught, but the handler then reads `self.driver`, an attribute never
assigned, so with CLEAN_UP_ON_FAILURE set the handler itself raises
AttributeError and nothing is returned.  Every later failure of the try
block, including the unconditional TypeError of line 210, reaches one of the
four handlers and returns 1. -/
def upload (env : UploadEnv) : UploadOutcome :=
  if env.hasUtilAmi = false then UploadOutcome.uncaughtExn
  else if env.driverOk = false then
    (if env.cleanUpOnFailure then UploadOutcome.uncaughtExn else UploadOutcome.exitCode 1)
  else if env.downloadOk = false then UploadOutcome.exitCode 1
  else if env.azOk = false then UploadOutcome.exitCode 1
  else if env.importOk = false then UploadOutcome.exitCode 1
  else
    match matchRegexPatternCall with
    | Except.error _ => UploadOutcome.exitCode 1
    | Except.ok _ => uploadAfterMatch env

/-- The environment of the end-to-end scenario of the spec: a populated
catalog and every external operation succeeding. -/
def happyUploadEnv : UploadEnv :=
  ⟨true, true, true, true, true, true, true⟩

/- ### Helper lemmas about the string primitives -/

theorem splitSep_ne_nil (sep : Char) (l : List Char) : splitSep sep l ≠ [] := by
  induction l with
  | nil => simp [splitSep]
  | cons c cs ih =>
    cases h : splitSep sep cs with
    | nil => exact absurd h ih
    | cons g gs =>
      simp only [splitSep, h]
      split <;> simp

theorem splitSep_append (sep : Char) (u v : List Char) :
    splitSep sep (u ++ sep :: v) = splitSep sep u ++ splitSep sep v := by
  induction u with
  | nil =>
    cases h : splitSep sep v with
    | nil => exact absurd h (splitSep_ne_nil sep v)
    | cons g gs => simp [splitSep, h]
  | cons c cs ih =>
    simp only [List.cons_append, splitSep, ih]
    cases h2 : splitSep sep cs with
    | nil => exact absurd h2 (splitSep_ne_nil sep cs)
    | cons g2 gs2 =>
      cases h3 : splitSep sep v with
      | nil => exact absurd h3 (splitSep_ne_nil sep v)
      | cons g3 gs3 =>
        by_cases hc : c = sep <;> simp [hc, ih, h2, h3]

theorem splitSep_eq_single (sep : Char) (l : List Char) (h : ∀ c ∈ l, c ≠ sep) :
    splitSep sep l = [l] := by
  induction l with
  | nil => simp [splitSep]
  | cons c cs ih =>
    have hc : c ≠ sep := h c (by simp)
    have ih2 := ih (fun d hd => h d (by simp [hd]))
    simp [splitSep, ih2, hc]

theorem joinSep_splitSep (sep : Char) (l : List Char) : joinSep sep (splitSep sep l) = l := by
  induction l with
  | nil => simp [splitSep, joinSep]
  | cons c cs ih =>
    cases h : splitSep sep cs with
    | nil => exact absurd h (splitSep_ne_nil sep cs)
    | cons g gs =>
      rw [h] at ih
      by_cases hc : c = sep
      · subst hc
        simp [splitSep, h, joinSep, ih]
      · cases gs with
        | nil =>
          have hg : g = cs := by simpa [joinSep] using ih
          simp [splitSep, h, hc, joinSep, hg]
        | cons g2 gs2 =>
          simp only [splitSep, h, if_neg hc, joinSep, List.cons_append]
          simpa [joinSep] using ih

theorem digitChar_val : ∀ d < 10, (Nat.digitChar d).toNat - 48 = d := by decide

theorem digitChar_ne_dash : ∀ d < 10, Nat.digitChar d ≠ '-' := by decide

theorem digitsVal_natDigitsRevGo : ∀ (fuel n : Nat), n < fuel →
    digitsVal (natDigitsRevGo fuel n) = n := by
  intro fuel
  induction fuel with
  | zero => intro n h; omega
  | succ f ih =>
    intro n h
    by_cases h10 : n < 10
    · simp [natDigitsRevGo, h10, digitsVal, digitChar_val n h10]
    · have hlt : n / 10 < n := Nat.div_lt_self (by omega) (by omega)
      have hdiv : n / 10 < f := by omega
      have hmod : n % 10 < 10 := Nat.mod_lt _ (by omega)
      simp [natDigitsRevGo, h10, digitsVal, ih _ hdiv, digitChar_val _ hmod]
      omega

theorem natRepr_injective {m n : Nat} (h : natRepr m = natRepr n) : m = n := by
  have hrev : natDigitsRevGo (m + 1) m = natDigitsRevGo (n + 1) n := by
    have := congrArg List.reverse h
    simpa [natRepr] using this
  have hm := digitsVal_natDigitsRevGo (m + 1) m (Nat.lt_succ_self m)
  have hn := digitsVal_natDigitsRevGo (n + 1) n (Nat.lt_succ_self n)
  rw [hrev] at hm
  omega

theorem natDigitsRevGo_ne_dash : ∀ (fuel n : Nat), ∀ c ∈ natDigitsRevGo fuel n, c ≠ '-' := by
  intro fuel
  induction fuel with
  | zero => simp [natDigitsRevGo]
  | succ f ih =>
    intro n c hc
    by_cases h10 : n < 10
    · simp [natDigitsRevGo, h10] at hc
      subst hc
      exact digitChar_ne_dash n h10
    · simp [natDigitsRevGo, h10] at hc
      rcases hc with hc | hc
      · subst hc
        exact digitChar_ne_dash _ (Nat.mod_lt _ (by omega))
      · exact ih _ c hc

theorem natRepr_ne_dash (n : Nat) : ∀ c ∈ natRepr n, c ≠ '-' := by
  intro c hc
  rw [natRepr, List.mem_reverse] at hc
  exact natDigitsRevGo_ne_dash _ _ c hc

theorem reallocName_stem (stem ds : List Char) (h : ∀ c ∈ ds, c ≠ '-') (dup : Nat) :
    reallocName (stem ++ '-' :: ds) dup = stem ++ '-' :: natRepr dup := by
  unfold reallocName
  rw [splitSep_append, splitSep_eq_single _ _ h]
  have hdrop : (splitSep '-' stem ++ [ds]).dropLast = splitSep '-' stem := by simp
  rw [hdrop, joinSep_splitSep]

theorem attemptName_eq (b r v t : List Char) (k : Nat) :
    attemptName b r v t k = nameStem b r v t ++ '-' :: natRepr k := by
  induction k with
  | zero =>
    have h0 : natRepr 0 = [ '0' ] := rfl
    show initialImageName b r v t = _
    simp [initialImageName, nameStem, h0]
  | succ k ih =>
    show reallocName (attemptName b r v t k) (k + 1) = _
    rw [ih, reallocName_stem _ _ (natRepr_ne_dash k)]

/- ### Claim theorems -/

/-- C7: name allocation is deterministic and non-repeating.  Every candidate
tried at duplicate counter k equals the template
buildName-region-virtLabel-volType-k, so the counter-0 name is a function of
the inputs alone, and candidates tried at two different counter values within
one allocation loop are always different names. -/
theorem name_allocation_distinct (b r v t : List Char) :
    (∀ k, attemptName b r v t k = nameStem b r v t ++ '-' :: natRepr k) ∧
    (∀ j k, j ≠ k → attemptName b r v t j ≠ attemptName b r v t k) := by
  refine ⟨attemptName_eq b r v t, ?_⟩
  intro j k hjk heq
  rw [attemptName_eq b r v t j, attemptName_eq b r v t k] at heq
  have htail := List.append_cancel_left heq
  have hrepr : natRepr j = natRepr k := by
    simpa using htail
  exact hjk (natRepr_injective hrepr)

/-- Witness for C7 at the end-to-end scenario names: the candidate at counter
1 differs from the candidate at counter 0. -/
theorem name_allocation_distinct_w :
    (1 : Nat) ≠ 0 ∧
    attemptName "fedora-cloud-31-1".data "us-east-1".data "HVM".data "standard".data 1 ≠
      attemptName "fedora-cloud-31-1".data "us-east-1".data "HVM".data "standard".data 0 :=
  ⟨by decide,
   (name_allocation_distinct "fedora-cloud-31-1".data "us-east-1".data "HVM".data
      "standard".data).2 1 0 (by decide)⟩

/-- C9 counterexample: the claim says a line with a field count other than 4
or 6 is silently dropped.  In the source the append still runs for such a
line, so a catalog of one well-formed line followed by the malformed line
`bad` parses to TWO entries, the second a duplicate of the first; and a
catalog whose first line is malformed raises a NameError instead of parsing
to an empty catalog. -/
theorem catalog_malformed_line_cex :
    parseAmis ("us-east-1|x86_64|ami-deadbeef|aki-12345678".data ++ '\n' :: "bad".data) =
      Except.ok
        [{ region := "us-east-1".data, driver := region_to_driver "us-east-1".data,
           arch := "x86_64".data, ami := "ami-deadbeef".data, aki := "aki-12345678".data },
         { region := "us-east-1".data, driver := region_to_driver "us-east-1".data,
           arch := "x86_64".data, ami := "ami-deadbeef".data, aki := "aki-12345678".data }] ∧
    parseAmis "bad".data = Except.error () :=
  ⟨rfl, rfl⟩

/-- C9 (amended): a 4-field or 6-field line parses to an entry whose driver is
resolved from the region code; a line with any other field count is not
dropped: when a well-formed line precedes it, it appends one more copy of the
most recently parsed entry, and when no line was parsed yet, the constructor
raises a NameError. -/
theorem catalog_parse_amended :
    (∀ line r a m k, splitSep '|' (trimChars line) = [r, a, m, k] →
        parseAmiLine line =
          some { region := r, driver := region_to_driver r, arch := a, ami := m, aki := k }) ∧
    (∀ line r o v a m k, splitSep '|' (trimChars line) = [r, o, v, a, m, k] →
        parseAmiLine line =
          some { region := r, driver := region_to_driver r, os := some o, ver := some v,
                 arch := a, ami := m, aki := k }) ∧
    (∀ line, parseAmiLine line = none →
        (∀ info rest,
          parseAmisGo (some info) (line :: rest) =
            (parseAmisGo (some info) rest).map (fun l => info :: l)) ∧
        (∀ rest, parseAmisGo none (line :: rest) = Except.error ())) := by
  refine ⟨?_, ?_, ?_⟩
  · intro line r a m k h
    unfold parseAmiLine
    rw [h]
  · intro line r o v a m k h
    unfold parseAmiLine
    rw [h]
  · intro line h
    constructor
    · intro info rest
      simp only [parseAmisGo, h]
    · intro rest
      simp only [parseAmisGo, h]

/-- Witness for C9: the amended parse behavior applied to a concrete 4-field
line. -/
theorem catalog_parse_amended_w :
    parseAmiLine "eu-west-1|x86_64|ami-1|aki-1".data =
      some { region := "eu-west-1".data, driver := region_to_driver "eu-west-1".data,
             arch := "x86_64".data, ami := "ami-1".data, aki := "aki-1".data } :=
  catalog_parse_amended.1 "eu-west-1|x86_64|ami-1|aki-1".data "eu-west-1".data
    "x86_64".data "ami-1".data "aki-1".data (by decide)

/-- C8: when the virtualization type is paravirtual, the registration call
uses root device /dev/sda and carries a kernel image id; when it is hvm, the
registration call uses root device /dev/sda1 and passes the kernel id as
absent. -/
theorem registration_virt_choice (testAmis : List AmiInfo) (region : List Char) :
    (∀ c, registrationChoice "paravirtual" testAmis region = some c →
        c.regRootDeviceName = "/dev/sda" ∧ c.registrationAki.isSome = true) ∧
    (∀ c, registrationChoice "hvm" testAmis region = some c →
        c.regRootDeviceName = "/dev/sda1" ∧ c.registrationAki = none) := by
  constructor
  · intro c hc
    unfold registrationChoice at hc
    rw [if_pos rfl] at hc
    cases h : registrationAkiLookup testAmis region with
    | none => rw [h] at hc; exact Option.noConfusion hc
    | some aki =>
      rw [h] at hc
      cases hc
      exact ⟨rfl, rfl⟩
  · intro c hc
    unfold registrationChoice at hc
    rw [if_neg (by decide)] at hc
    cases hc
    exact ⟨rfl, rfl⟩

/-- Witness for C8 with a one-entry test catalog. -/
theorem registration_virt_choice_w :
    ((⟨"m1.xlarge", some "aki-99".data, "/dev/sda"⟩ : RegChoice).regRootDeviceName = "/dev/sda" ∧
      (⟨"m1.xlarge", some "aki-99".data, "/dev/sda"⟩ : RegChoice).registrationAki.isSome = true) ∧
    ((⟨"m3.2xlarge", none, "/dev/sda1"⟩ : RegChoice).regRootDeviceName = "/dev/sda1" ∧
      (⟨"m3.2xlarge", none, "/dev/sda1"⟩ : RegChoice).registrationAki = none) :=
  ⟨(registration_virt_choice
      [{ region := "us-east-1".data, driver := region_to_driver "us-east-1".data,
         arch := "x86_64".data, ami := "ami-1".data, aki := "aki-99".data }]
      "us-east-1".data).1 _ (by decide),
   (registration_virt_choice
      [{ region := "us-east-1".data, driver := region_to_driver "us-east-1".data,
         arch := "x86_64".data, ami := "ami-1".data, aki := "aki-99".data }]
      "us-east-1".data).2 _ (by decide)⟩

theorem nodeCleanActs_mem {a : CleanAction} {o : Option Nat} (h : a ∈ nodeCleanActs o) :
    ∃ n, o = some n ∧ a = CleanAction.destroyNode n := by
  cases o with
  | none => simp [nodeCleanActs] at h
  | some n =>
    simp [nodeCleanActs] at h
    exact ⟨n, rfl, h⟩

theorem volumeCleanActs_mem {a : CleanAction} {o : Option Nat} (h : a ∈ volumeCleanActs o) :
    ∃ v, o = some v ∧ a = CleanAction.destroyVolume v := by
  cases o with
  | none => simp [volumeCleanActs] at h
  | some v =>
    simp [volumeCleanActs] at h
    exact ⟨v, rfl, h⟩

theorem snapCleanActs_mem {a : CleanAction} {st : CleanState} (h : a ∈ snapCleanActs st) :
    ∃ s, st.snapshot = some s ∧ st.images = [] ∧ a = CleanAction.destroySnapshot s := by
  cases hs : st.snapshot with
  | none => simp [snapCleanActs, hs] at h
  | some s =>
    by_cases hi : st.images = []
    · simp [snapCleanActs, hs, hi] at h
      exact ⟨s, rfl, hi, h⟩
    · simp [snapCleanActs, hs, hi] at h

theorem imageCleanActs_mem {a : CleanAction} {st : CleanState} {d : Bool}
    (h : a ∈ imageCleanActs st d) :
    d = true ∧ st.images ≠ [] ∧ ∃ i ∈ st.images, a = CleanAction.deleteImage i := by
  unfold imageCleanActs at h
  by_cases hc : d = true ∧ st.images ≠ []
  · rw [if_pos hc] at h
    simp only [List.mem_map] at h
    obtain ⟨i, hi, hai⟩ := h
    exact ⟨hc.1, hc.2, i, hi, hai.symm⟩
  · rw [if_neg hc] at h
    simp at h

theorem clean_up_acts (st : CleanState) (d : Bool) :
    (clean_up st d).2 =
      imageCleanActs st d ++ snapCleanActs st ++ nodeCleanActs st.utilNode ++
        volumeCleanActs st.utilVolume ++ nodeCleanActs st.testNode := rfl

/-- C2: on the failure path, when CLEAN_UP_ON_FAILURE is set the cleanup
destroys the utility node, the utility volume and the test node that exist,
and deletes the registered images exactly when DELETE_IMAGES_ON_FAILURE is
also set; an image deletion can only happen with both flags set; and with
both flags unset the failure path issues no teardown call at all. -/
theorem failure_cleanup_flags (st : CleanState) (cu di : Bool) :
    (cu = true →
      (∀ n, st.utilNode = some n → CleanAction.destroyNode n ∈ (on_failure cu di st).2.1) ∧
      (∀ v, st.utilVolume = some v → CleanAction.destroyVolume v ∈ (on_failure cu di st).2.1) ∧
      (∀ n, st.testNode = some n → CleanAction.destroyNode n ∈ (on_failure cu di st).2.1) ∧
      (di = true → ∀ i ∈ st.images, CleanAction.deleteImage i ∈ (on_failure cu di st).2.1)) ∧
    (∀ i, CleanAction.deleteImage i ∈ (on_failure cu di st).2.1 → cu = true ∧ di = true) ∧
    (cu = false → di = false → (on_failure cu di st).2.1 = []) := by
  refine ⟨?_, ?_, ?_⟩
  · intro hcu
    subst hcu
    refine ⟨?_, ?_, ?_, ?_⟩
    · intro n h
      simp [on_failure, clean_up, nodeCleanActs, h]
    · intro v h
      simp [on_failure, clean_up, volumeCleanActs, h]
    · intro n h
      simp [on_failure, clean_up, nodeCleanActs, h]
    · intro hdi i hi
      subst hdi
      have hne : st.images ≠ [] := List.ne_nil_of_mem hi
      simp [on_failure, clean_up, imageCleanActs, hne, List.mem_map, hi]
  · intro i hi
    cases cu with
    | false => simp [on_failure] at hi
    | true =>
      simp only [on_failure, if_pos] at hi
      rw [clean_up_acts] at hi
      simp only [List.mem_append] at hi
      rcases hi with ((((hi | hi) | hi) | hi) | hi)
      · exact ⟨rfl, (imageCleanActs_mem hi).1⟩
      · obtain ⟨s, _, _, habs⟩ := snapCleanActs_mem hi
        exact absurd habs (by simp)
      · obtain ⟨n, _, habs⟩ := nodeCleanActs_mem hi
        exact absurd habs (by simp)
      · obtain ⟨v, _, habs⟩ := volumeCleanActs_mem hi
        exact absurd habs (by simp)
      · obtain ⟨n, _, habs⟩ := nodeCleanActs_mem hi
        exact absurd habs (by simp)
  · intro hcu _
    subst hcu
    simp [on_failure]

/-- Witness for C2 at a concrete failure state with every handle present and
both flags set. -/
theorem failure_cleanup_flags_w :
    CleanAction.destroyNode 4 ∈
      (on_failure true true ⟨[9], some 2, some 3, some 5, some 4⟩).2.1 ∧
    CleanAction.deleteImage 9 ∈
      (on_failure true true ⟨[9], some 2, some 3, some 5, some 4⟩).2.1 ∧
    (on_failure false false ⟨[9], some 2, some 3, some 5, some 4⟩).2.1 = [] :=
  ⟨((failure_cleanup_flags ⟨[9], some 2, some 3, some 5, some 4⟩ true true).1 rfl).2.2.1
      4 rfl,
   ((failure_cleanup_flags ⟨[9], some 2, some 3, some 5, some 4⟩ true true).1 rfl).2.2.2
      rfl 9 (by decide),
   (failure_cleanup_flags ⟨[9], some 2, some 3, some 5, some 4⟩ false false).2.2 rfl rfl⟩

/-- C6: on every cleanup invocation the snapshot is destroyed only when the
images list is empty; whenever at least one image is registered, no snapshot
destroy call is issued and the snapshot handle survives unchanged. -/
theorem cleanup_snapshot_frame (st : CleanState) (d : Bool) :
    (∀ s, CleanAction.destroySnapshot s ∈ (clean_up st d).2 → st.images = []) ∧
    (st.images ≠ [] →
      (∀ s, CleanAction.destroySnapshot s ∉ (clean_up st d).2) ∧
      (clean_up st d).1.snapshot = st.snapshot) := by
  have honly : ∀ s, CleanAction.destroySnapshot s ∈ (clean_up st d).2 → st.images = [] := by
    intro s hs
    rw [clean_up_acts] at hs
    simp only [List.mem_append] at hs
    rcases hs with ((((hs | hs) | hs) | hs) | hs)
    · obtain ⟨_, _, i, _, habs⟩ := imageCleanActs_mem hs
      exact absurd habs (by simp)
    · obtain ⟨s2, _, hemp, _⟩ := snapCleanActs_mem hs
      exact hemp
    · obtain ⟨n, _, habs⟩ := nodeCleanActs_mem hs
      exact absurd habs (by simp)
    · obtain ⟨v, _, habs⟩ := volumeCleanActs_mem hs
      exact absurd habs (by simp)
    · obtain ⟨n, _, habs⟩ := nodeCleanActs_mem hs
      exact absurd habs (by simp)
  refine ⟨honly, fun hne => ⟨fun s hs => hne (honly s hs), ?_⟩⟩
  show snapAfterClean st = st.snapshot
  unfold snapAfterClean
  cases hs : st.snapshot with
  | none => rfl
  | some s => simp [hne]

/-- Witness for C6: with one registered image, cleanup keeps the snapshot. -/
theorem cleanup_snapshot_frame_w :
    ([9] : List Nat) ≠ [] ∧
    CleanAction.destroySnapshot 2 ∉ (clean_up ⟨[9], some 2, none, none, none⟩ true).2 ∧
    (clean_up ⟨[9], some 2, none, none, none⟩ true).1.snapshot = some 2 :=
  ⟨by decide,
   ((cleanup_snapshot_frame ⟨[9], some 2, none, none, none⟩ true).2 (by decide)).1 2,
   ((cleanup_snapshot_frame ⟨[9], some 2, none, none, none⟩ true).2 (by decide)).2⟩

/-- C10: the success-path cleanup call runs with delete_images at its default
False, so it never deletes a registered image, the images list survives, and
when at least one image was registered the snapshot is neither destroyed nor
cleared: every registered image and the snapshot survive a successful run. -/
theorem success_cleanup_frame (st : CleanState) :
    (∀ i, CleanAction.deleteImage i ∉ (clean_up st false).2) ∧
    (clean_up st false).1.images = st.images ∧
    (st.images ≠ [] →
      (∀ s, CleanAction.destroySnapshot s ∉ (clean_up st false).2) ∧
      (clean_up st false).1.snapshot = st.snapshot) := by
  refine ⟨?_, rfl, ?_⟩
  · intro i hi
    rw [clean_up_acts] at hi
    simp only [List.mem_append] at hi
    rcases hi with ((((hi | hi) | hi) | hi) | hi)
    · exact absurd (imageCleanActs_mem hi).1 (by simp)
    · obtain ⟨s, _, _, habs⟩ := snapCleanActs_mem hi
      exact absurd habs (by simp)
    · obtain ⟨n, _, habs⟩ := nodeCleanActs_mem hi
      exact absurd habs (by simp)
    · obtain ⟨v, _, habs⟩ := volumeCleanActs_mem hi
      exact absurd habs (by simp)
    · obtain ⟨n, _, habs⟩ := nodeCleanActs_mem hi
      exact absurd habs (by simp)
  · intro hne
    exact (cleanup_snapshot_frame st false).2 hne

/-- Witness for C10: a successful run with one image and a snapshot keeps
both. -/
theorem success_cleanup_frame_w :
    CleanAction.deleteImage 9 ∉ (clean_up ⟨[9], some 2, none, some 5, none⟩ false).2 ∧
    (clean_up ⟨[9], some 2, none, some 5, none⟩ false).1.images = [9] ∧
    (clean_up ⟨[9], some 2, none, some 5, none⟩ false).1.snapshot = some 2 :=
  ⟨(success_cleanup_frame ⟨[9], some 2, none, some 5, none⟩).1 9,
   (success_cleanup_frame ⟨[9], some 2, none, some 5, none⟩).2.1,
   ((success_cleanup_frame ⟨[9], some 2, none, some 5, none⟩).2.2 (by decide)).2⟩

/-- C3: the boot test passes exactly when the remote exit status is 0; any
other status (including the -1 that paramiko reports on a channel failure)
yields the failed verdict and emits the image.test failed message whose
diagnostic payload is the buffered channel output when any is available and
the fixed placeholder otherwise. -/
theorem boot_test_verdict (ch : TestChannel) :
    ((bootTest ch).1 = TestVerdict.passed ↔ ch.exitStatus = 0) ∧
    (ch.exitStatus ≠ 0 →
      (bootTest ch).1 = TestVerdict.failed ∧
      (bootTest ch).2 =
        [TestMsg.testFailed (if ch.recvReady then ch.recvData else "(no data)")]) := by
  by_cases h : ch.exitStatus = 0 <;>
    simp [bootTest, bootTestDiagnostic, h]

/-- Witness for C3: a channel that died without a status (exit -1, nothing
buffered) fails the test with the placeholder payload. -/
theorem boot_test_verdict_w :
    ((-1 : Int) ≠ 0) ∧
    (bootTest ⟨-1, false, ""⟩).1 = TestVerdict.failed ∧
    (bootTest ⟨-1, false, ""⟩).2 = [TestMsg.testFailed "(no data)"] :=
  ⟨by decide,
   ((boot_test_verdict ⟨-1, false, ""⟩).2 (by decide)).1,
   ((boot_test_verdict ⟨-1, false, ""⟩).2 (by decide)).2⟩

/-- C4: the snapshot poll is inverted in the source.  The retry combinator
re-invokes `_check_snapshot_exists` while the result is False, but the
function returns False exactly when the state field IS completed, so the
poll never terminates once the snapshot completes, and it stops at the very
first attempt when the snapshot is still pending.  The claim (and the
surrounding docstring and log message of the source) say the loop should
terminate exactly when the state reaches completed. -/
theorem snapshot_poll_inverted :
    (∀ fuel i,
      retryWhileFalse (fun _ => check_snapshot_exists "completed") i fuel = none) ∧
    retryWhileFalse (fun _ => check_snapshot_exists "pending") 0 1 = some 0 ∧
    check_snapshot_exists "completed" = false ∧
    check_snapshot_exists "pending" = true := by
  refine ⟨?_, by decide, by decide, by decide⟩
  intro fuel
  induction fuel with
  | zero => intro i; rfl
  | succ f ih =>
    intro i
    simp only [retryWhileFalse]
    rw [if_neg (by decide)]
    exact ih (i + 1)

/-- C5 counterexample: the claim says any non-retryable error during a
region's copy or publish is individually reported.  Run the replication
stage for one region whose copy succeeds and whose every make-public attempt
raises a non-retryable error: the resulting bus traffic is exactly the
started and completed messages for the region — the publish error produces
no failure report at all, and the completed message is emitted even though
the image was never made public. -/
theorem replication_publish_error_cex :
    replicationRun (fun _ _ => RoundOutcome.okAll [7]) (fun _ _ => PubResult.otherErr)
        ["eu-west-1"] 0 3 =
      some [RepEvent.started "eu-west-1", RepEvent.completed "eu-west-1"] ∧
    (fun _ _ => PubResult.otherErr : Nat → Nat → PubResult) 0 0 = PubResult.otherErr ∧
    publishLoopGo (fun _ => PubResult.otherErr) 0 3 = some (false, 0) :=
  ⟨rfl, rfl, rfl⟩

/-- C5 (amended): an image-not-yet-available error while making a copy public
is retried after one more fixed 20-second wait; a non-retryable error during
a region's copy ends only that region's loop, emits its failed message, and
the remaining regions of the fan-out are processed unchanged; a
non-retryable error while making a copy public likewise ends only that
publish loop and aborts nothing else, but it is not reported: the loop
records no failure and the completed message for that copy is still
emitted. -/
theorem replication_isolation_amended :
    (∀ (att : Nat → PubResult) (i fuel : Nat), att i = PubResult.unavailable →
        publishLoopGo att i (fuel + 1) =
          (publishLoopGo att (i + 1) fuel).map (fun r => (r.1, r.2 + 1))) ∧
    (∀ (round : Nat → RoundOutcome) (i dup fuel : Nat) (part : List Nat),
        round i = RoundOutcome.failAt part false →
        copyRegionGo round i dup (fuel + 1) = some (dup, part, true)) ∧
    (∀ (rounds : Nat → Nat → RoundOutcome) (fuel : Nat) (r : String) (rs : List String)
        (k dup dup2 dup3 : Nat) (ids allIds : List Nat) (evs : List RepEvent),
        copyRegionGo (rounds k) 0 dup fuel = some (dup2, ids, true) →
        copyFanout rounds fuel rs (k + 1) dup2 = some (dup3, allIds, evs) →
        copyFanout rounds fuel (r :: rs) k dup =
          some (dup3, ids ++ allIds, RepEvent.started r :: RepEvent.copyFailed r :: evs)) ∧
    (∀ (att : Nat → PubResult) (i fuel : Nat), att i = PubResult.otherErr →
        publishLoopGo att i (fuel + 1) = some (false, 0)) ∧
    (∀ (att : Nat → PubResult) (region : String) (fuel : Nat) (res : Bool × Nat),
        publishLoopGo att 0 fuel = some res →
        publishImage att region fuel = some [RepEvent.completed region]) := by
  refine ⟨?_, ?_, ?_, ?_, ?_⟩
  · intro att i fuel h
    simp [publishLoopGo, h]
  · intro round i dup fuel part h
    simp [copyRegionGo, h]
  · intro rounds fuel r rs k dup dup2 dup3 ids allIds evs h1 h2
    simp [copyFanout, h1, h2]
  · intro att i fuel h
    simp [publishLoopGo, h]
  · intro att region fuel res h
    simp [publishImage, h]

/-- Witness for C5 applying every part of the amended statement at concrete
oracles. -/
theorem replication_isolation_amended_w :
    publishLoopGo (fun _ => PubResult.unavailable) 0 1 =
      (publishLoopGo (fun _ => PubResult.unavailable) 1 0).map (fun r => (r.1, r.2 + 1)) ∧
    copyRegionGo (fun _ => RoundOutcome.failAt [] false) 0 0 1 = some (0, [], true) ∧
    copyFanout (fun _ _ => RoundOutcome.failAt [] false) 1 ["b"] 0 0 =
      some (0, [] ++ [], RepEvent.started "b" :: RepEvent.copyFailed "b" :: []) ∧
    publishLoopGo (fun _ => PubResult.otherErr) 0 1 = some (false, 0) ∧
    publishImage (fun _ => PubResult.otherErr) "b" 1 = some [RepEvent.completed "b"] :=
  ⟨replication_isolation_amended.1 (fun _ => PubResult.unavailable) 0 0 rfl,
   replication_isolation_amended.2.1 (fun _ => RoundOutcome.failAt [] false) 0 0 0 [] rfl,
   replication_isolation_amended.2.2.1 (fun _ _ => RoundOutcome.failAt [] false) 1 "b" []
     0 0 0 0 [] [] [] rfl rfl,
   replication_isolation_amended.2.2.2.1 (fun _ => PubResult.otherErr) 0 0 rfl,
   replication_isolation_amended.2.2.2.2 (fun _ => PubResult.otherErr) "b" 1 (false, 0) rfl⟩

/-- C1: the source can never return 0.  Line 210 calls match_regex_pattern
with the misspelled keyword argument `outout`, so every run that reaches the
conversion step raises TypeError and the generic handler returns 1; every
earlier failure also returns 1 (or, for a driver construction failure with
CLEAN_UP_ON_FAILURE set, escapes as an uncaught AttributeError).  In
particular the end-to-end scenario of the spec, in which every external
operation succeeds, exits with status 1 instead of the promised 0. -/
theorem upload_never_exits_zero :
    upload happyUploadEnv = UploadOutcome.exitCode 1 ∧
    ∀ env, upload env ≠ UploadOutcome.exitCode 0 := by
  constructor
  · rfl
  · intro env
    obtain ⟨a, b, c, d, e, f, g⟩ := env
    cases a <;> cases b <;> cases c <;> cases d <;> cases e <;> cases f <;> cases g <;> decide
